import Mathlib

/-!
# Telemetry backend: handlers, result reshaping and query text

A shallow embedding of `submissions/backend/handlers.go`.

* Go values of type `interface{}` that a result row can hold are the inductive type `Value`.
* A Go slice that is only ever grown by `append` from its nil zero value is a `List`; the empty
  list stands for the nil slice.
* The query engine is a function from query text to either an error message or the rows that
  the result iterator delivers; a handler returns its HTTP response together with the list of
  query texts it handed to the engine.
* The standard library pieces used by the handlers (`time.Time`, `Format`, `Parse`, `Unix`,
  the conversion of an integer to `float64`) are modelled executably below.
-/

namespace Backend

/-! ## float64 -/

/-- An IEEE 754 binary64 value, identified by its 64-bit pattern. -/
structure Float64 where
  bits : Nat
deriving DecidableEq, Repr

/-- Position of the highest set bit of `m`, searched through at most `fuel` halvings. -/
def highBit (fuel m : Nat) : Nat :=
  match fuel with
  | 0 => 0
  | fuel + 1 => if m < 2 then 0 else highBit fuel (m / 2) + 1

/-- Bit pattern of the float64 nearest to the natural number `m` (round to nearest, ties to
even). For `m < 2 ^ 64` the exponent stays far below the overflow threshold. A mantissa that
rounds up to `2 ^ 53` carries into the exponent field by plain addition. -/
def float64OfNat (m : Nat) : Nat :=
  if m = 0 then 0
  else
    let e := highBit 64 m
    if e ≤ 52 then (e + 1023) * 2 ^ 52 + (m * 2 ^ (52 - e) - 2 ^ 52)
    else
      let sh := e - 52
      let q := m / 2 ^ sh
      let r := m % 2 ^ sh
      let half := 2 ^ (sh - 1)
      let q1 := if half < r ∨ (r = half ∧ q % 2 = 1) then q + 1 else q
      (e + 1023) * 2 ^ 52 + (q1 - 2 ^ 52)

/-- Go conversion `float64(v)` of a signed integer `v`. -/
def float64OfInt (n : Int) : Float64 :=
  if n < 0 then ⟨2 ^ 63 + float64OfNat n.natAbs⟩ else ⟨float64OfNat n.natAbs⟩

/-- The float64 constant 12.5, that is 1.5625 * 2 ^ 3. -/
def f64_12_5 : Float64 := ⟨0x4029000000000000⟩

/-! ## time.Time -/

/-- A `time.Time` instant as the handlers observe it: whole seconds since the Unix epoch.
The handlers only call `UTC().Format(time.RFC3339)` and `Unix()`, neither of which shows the
sub-second part or the location. -/
structure Time where
  unix : Int
deriving DecidableEq, Repr

/-- Go `t.Unix()`. -/
def Time.Unix (t : Time) : Int := t.unix

/-- Go `t.UTC()`: the same instant, location set to UTC. -/
def Time.UTC (t : Time) : Time := t

/-- Number of days in a month of the proleptic Gregorian calendar (`daysIn`). -/
def daysIn (month : Nat) (year : Int) : Nat :=
  if month = 2 then
    if year % 4 = 0 ∧ (year % 100 ≠ 0 ∨ year % 400 = 0) then 29 else 28
  else if month = 4 ∨ month = 6 ∨ month = 9 ∨ month = 11 then 30
  else 31

/-- Days from 1970-01-01 to the civil date `y-m-d` (proleptic Gregorian). -/
def daysFromCivil (y : Int) (m d : Nat) : Int :=
  let y1 := if m ≤ 2 then y - 1 else y
  let era := y1 / 400
  let yoe := y1 - era * 400
  let mp : Int := if 2 < m then (m : Int) - 3 else (m : Int) + 9
  let doy := (153 * mp + 2) / 5 + (d : Int) - 1
  let doe := yoe * 365 + yoe / 4 - yoe / 100 + doy
  era * 146097 + doe - 719468

/-- Civil date (year, month, day) of the day `z` days after 1970-01-01. -/
def civilFromDays (z : Int) : Int × Nat × Nat :=
  let z1 := z + 719468
  let era := z1 / 146097
  let doe := z1 - era * 146097
  let yoe := (doe - doe / 1460 + doe / 36524 - doe / 146096) / 365
  let y := yoe + era * 400
  let doy := doe - (365 * yoe + yoe / 4 - yoe / 100)
  let mp := (5 * doy + 2) / 153
  let d := doy - (153 * mp + 2) / 5 + 1
  let m := if mp < 10 then mp + 3 else mp - 9
  (if m ≤ 2 then y + 1 else y, m.toNat, d.toNat)

/-- Go `Date(year, month, day, hour, min, sec, 0, UTC)` for in-range fields. -/
def Date (year : Int) (month day hour min sec : Nat) : Time :=
  ⟨daysFromCivil year month day * 86400 + (hour * 3600 + min * 60 + sec : Nat)⟩

/-- Decimal digits of `n`, most significant first, at least one digit. -/
def digits (n : Nat) : List Char := (Nat.toDigits 10 n)

/-- Go `appendInt`: decimal rendering, zero-padded to `width`, with a leading minus sign
for negative numbers. -/
def appendInt (x : Int) (width : Nat) : String :=
  let ds := digits x.natAbs
  let body := List.replicate (width - ds.length) '0' ++ ds
  String.mk (if x < 0 then '-' :: body else body)

/-- Go `t.Format(time.RFC3339)` for a time whose location is UTC:
layout `2006-01-02T15:04:05Z07:00`, zone rendered as `Z`. -/
def Time.FormatRFC3339 (t : Time) : String :=
  let days := t.unix / 86400
  let rem := t.unix % 86400
  let ymd := civilFromDays days
  appendInt ymd.1 4 ++ "-" ++ appendInt ymd.2.1 2 ++ "-" ++ appendInt ymd.2.2 2 ++ "T"
    ++ appendInt (rem / 3600) 2 ++ ":" ++ appendInt (rem % 3600 / 60) 2 ++ ":"
    ++ appendInt (rem % 60) 2 ++ "Z"

/-- The `parseUint` helper of the RFC 3339 parser: all characters are decimal digits and the
number lies in `[min, max]`. -/
def parseUint (cs : List Char) (min max : Nat) : Option Nat :=
  if cs.all Char.isDigit then
    let x := cs.foldl (fun x c => x * 10 + (c.toNat - 48)) 0
    if x < min ∨ max < x then none else some x
  else none

/-- Zone designator of an RFC 3339 timestamp: `Z`, or a sign followed by `hh:mm`.
Returns the offset east of UTC in seconds. -/
def parseZone (cs : List Char) : Option Int :=
  match cs with
  | ['Z'] => some 0
  | [sg, h1, h2, c, m1, m2] =>
    match parseUint [h1, h2] 0 23, parseUint [m1, m2] 0 59 with
    | some hr, some mm =>
      if c = ':' then
        if sg = '+' then some (((hr * 60 + mm) * 60 : Nat) : Int)
        else if sg = '-' then some (-(((hr * 60 + mm) * 60 : Nat) : Int))
        else none
      else none
    | _, _ => none
  | _ => none

/-- Removes an optional fractional second: a period followed by one or more digits. -/
def dropFraction (cs : List Char) : List Char :=
  match cs with
  | '.' :: d :: rest => if d.isDigit then rest.dropWhile Char.isDigit else cs
  | _ => cs

/-- The fast path `parseRFC3339` that `time.Parse` tries first for the layout RFC3339:
fixed positions `YYYY-MM-DDTHH:MM:SS`, an optional fraction after a period, then `Z` or a
signed `hh:mm` offset below 24:00. `none` stands for the result `ok = false`. -/
def fastParseRFC3339 (s : String) : Option Time :=
  match s.data with
  | y1 :: y2 :: y3 :: y4 :: s1 :: m1 :: m2 :: s2 :: d1 :: d2 :: s3 :: h1 :: h2 :: s4
      :: n1 :: n2 :: s5 :: c1 :: c2 :: rest =>
    match parseUint [y1, y2, y3, y4] 0 9999 with
    | none => none
    | some year =>
    match parseUint [m1, m2] 1 12 with
    | none => none
    | some month =>
    match parseUint [d1, d2] 1 (daysIn month year), parseUint [h1, h2] 0 23,
        parseUint [n1, n2] 0 59, parseUint [c1, c2] 0 59 with
    | some day, some hour, some min, some sec =>
      if s1 = '-' ∧ s2 = '-' ∧ s3 = 'T' ∧ s4 = ':' ∧ s5 = ':' then
        match parseZone (dropFraction rest) with
        | some off => some ⟨(Date year month day hour min sec).unix - off⟩
        | none => none
      else none
    | _, _, _, _ => none
  | _ => none

/-- Value of a decimal digit. -/
def digitValue (c : Char) : Nat := c.toNat - 48

/-- Go `getnum(s, fixed)`: a number of one or two digits at the head of `s`, of exactly two
digits when `fixed`; returns the number and the rest of the text. -/
def getnum (s : List Char) (fixed : Bool) : Option (Nat × List Char) :=
  match s with
  | [] => none
  | [a] => if a.isDigit ∧ fixed = false then some (digitValue a, []) else none
  | a :: b :: rest =>
    if a.isDigit then
      if b.isDigit then some (digitValue a * 10 + digitValue b, rest)
      else if fixed then none
      else some (digitValue a, b :: rest)
    else none

/-- Go `skip(value, prefix)` for a layout prefix of one character other than a space. -/
def skipChar (value : List Char) (c : Char) : Option (List Char) :=
  match value with
  | v :: rest => if v = c then some rest else none
  | [] => none

/-- The year of the layout element `2006`: exactly four digits. -/
def getLongYear (value : List Char) : Option (Nat × List Char) :=
  match value with
  | a :: b :: c :: d :: rest =>
    if a.isDigit ∧ b.isDigit ∧ c.isDigit ∧ d.isDigit then
      some (((digitValue a * 10 + digitValue b) * 10 + digitValue c) * 10 + digitValue d, rest)
    else none
  | _ => none

/-- A fractional second in the input where the layout has none: a period or a comma
followed by one or more digits is consumed. -/
def skipFractionalSecond (value : List Char) : List Char :=
  match value with
  | p :: d :: rest =>
    if (p = '.' ∨ p = ',') ∧ d.isDigit then rest.dropWhile Char.isDigit else value
  | _ => value

/-- The layout element `Z07:00`: the letter `Z`, or a sign, two digits, a colon and two
digits, with hour at most 24 and minute at most 60. Returns the offset east of UTC in
seconds and the rest of the text. -/
def getZone (value : List Char) : Option (Int × List Char) :=
  match value with
  | 'Z' :: rest => some (0, rest)
  | sg :: h1 :: h2 :: c :: m1 :: m2 :: rest =>
    if c = ':' then
      match getnum [h1, h2] true, getnum [m1, m2] true with
      | some (hr, _), some (mm, _) =>
        if 24 < hr ∨ 60 < mm then none
        else if sg = '+' then some ((((hr * 60 + mm) * 60 : Nat) : Int), rest)
        else if sg = '-' then some (-(((hr * 60 + mm) * 60 : Nat) : Int), rest)
        else none
      | _, _ => none
    else none
  | _ => none

/-- A range or validity check of the parser: `none` when it fails. -/
def check (ok : Bool) : Option Unit := if ok then some () else none

/-- The date elements `2006-01-02` of the layout: a four-digit year, a two-digit month
between 1 and 12 and a two-digit day (validated against the month once parsing is
complete). Returns year, month, day and the rest of the text. -/
def getDate (value : List Char) : Option ((Nat × Nat × Nat) × List Char) :=
  (getLongYear value).bind fun year =>
  (skipChar year.2 '-').bind fun v1 =>
  (getnum v1 true).bind fun month =>
  (check (decide (1 ≤ month.1 ∧ month.1 ≤ 12))).bind fun _ =>
  (skipChar month.2 '-').bind fun v2 =>
  (getnum v2 true).bind fun day =>
  some ((year.1, month.1, day.1), day.2)

/-- The clock elements `15:04:05` of the layout: an hour of one or two digits below 24, a
two-digit minute and a two-digit second below 60. Returns hour, minute, second and the rest
of the text. -/
def getClock (value : List Char) : Option ((Nat × Nat × Nat) × List Char) :=
  (getnum value false).bind fun hour =>
  (check (decide (hour.1 < 24))).bind fun _ =>
  (skipChar hour.2 ':').bind fun v4 =>
  (getnum v4 true).bind fun minute =>
  (check (decide (minute.1 < 60))).bind fun _ =>
  (skipChar minute.2 ':').bind fun v5 =>
  (getnum v5 true).bind fun sec =>
  (check (decide (sec.1 < 60))).bind fun _ =>
  some ((hour.1, minute.1, sec.1), sec.2)

/-- The general parser `parse` of the `time` package, specialised to the layout
`2006-01-02T15:04:05Z07:00`: the date, the letter `T`, the clock, an optional fraction, the
zone, and no text left over; the day is validated against the month at the end. -/
def layoutParseRFC3339 (s : String) : Option Time :=
  (getDate s.data).bind fun date =>
  (skipChar date.2 'T').bind fun v3 =>
  (getClock v3).bind fun clock =>
  (getZone (skipFractionalSecond clock.2)).bind fun zone =>
  (check (decide (zone.2 = []))).bind fun _ =>
  (check (decide (1 ≤ date.1.2.2 ∧ date.1.2.2 ≤ daysIn date.1.2.1 date.1.1))).bind fun _ =>
  some ⟨(Date date.1.1 date.1.2.1 date.1.2.2 clock.1.1 clock.1.2.1 clock.1.2.2).unix - zone.1⟩

/-- Go `time.Parse(time.RFC3339, s)` (Go 1.20 and later), as `none` when it reports an
error: the fast path first, and the general layout parser when the fast path does not
accept the text. The fraction does not reach the whole-second instant. -/
def ParseRFC3339 (s : String) : Option Time :=
  match fastParseRFC3339 s with
  | some t => some t
  | none => layoutParseRFC3339 s

/-! ## Rows delivered by the query engine -/

/-- A Go value of type `interface{}` found in a result row. The first four numeric variants
are the ones named in the type switch of `toFloat64` (of these the query client delivers
`float64` and `int64`); the others are what else the query client can deliver, all handled
by the `default` branch. -/
inductive Value where
  | nil
  | float64 (v : Float64)
  | int64 (v : Int)
  | int32 (v : Int)
  | int (v : Int)
  | uint64 (v : Nat)
  | string (v : String)
  | bool (v : Bool)
  | time (v : Time)
  | duration (v : Int)
  | bytes (v : List Nat)
deriving DecidableEq, Repr

/-- The Go type `map[string]interface{}`; the first entry for a key is the one the map holds. -/
abbrev Values := List (String × Value)

/-- Go single-result index expression `values[key]`: the nil interface when the key is absent. -/
def Values.get (values : Values) (key : String) : Value :=
  (values.lookup key).getD Value.nil

/-- A `FluxRecord`: `time` is what `record.Time()` returns, `values` what `record.Values()`
returns. -/
structure FluxRecord where
  time : Time
  values : Values
deriving DecidableEq, Repr

/-- Go `record.Value()`: the `_value` column. -/
def FluxRecord.Value (record : FluxRecord) : Value := record.values.get "_value"

/-- What a handler sees of a `QueryTableResult`: the records for which `Next()` returned true,
and the error (`result.Err()`) that ended the iteration, if any. -/
structure QueryTableResult where
  records : List FluxRecord
  err : Option String
deriving DecidableEq, Repr

/-- The method `queryAPI.Query(ctx, flux)`: an error message, or a result to iterate. -/
abbrev QueryAPI := String → Except String QueryTableResult

/-! ## Response shapes -/

/-- The local type `SeriesPoint` of `GetTelemetryHandler`. -/
structure SeriesPoint where
  Time : String
  Value : Float64
deriving DecidableEq, Repr

/-- The local type `TrackPoint` of `GetTelemetryHandler`. -/
structure TrackPoint where
  Time : String
  Lat : Float64
  Lon : Float64
  EventTime : Int
deriving DecidableEq, Repr

/-- The five slices that the row loop of `GetTelemetryHandler` fills. -/
structure Telemetry where
  speed : List SeriesPoint
  fls485_level_1 : List SeriesPoint
  fls485_level_2 : List SeriesPoint
  main_power_voltage : List SeriesPoint
  track : List TrackPoint
deriving DecidableEq, Repr

/-- The JSON bodies the handlers pass to `c.JSON`. -/
inductive Body where
  | error (msg : String)
  | imeis (imeis : List String)
  | fields (fields : List String)
  | telemetry (data : Telemetry)
deriving DecidableEq, Repr

/-- The call `c.JSON(status, body)`. -/
structure Response where
  status : Nat
  body : Body
deriving DecidableEq, Repr

/-- What running a handler does: the response it writes and the query texts it passed to
`queryAPI.Query`, in order. -/
structure Outcome where
  response : Response
  issued : List String
deriving DecidableEq, Repr

def StatusOK : Nat := 200
def StatusBadRequest : Nat := 400
def StatusInternalServerError : Nat := 500

/-- The part of `gin.Context` the handlers read: the URL query parameters. -/
structure Context where
  params : List (String × String)
deriving DecidableEq, Repr

/-- Go `c.Query(key)`: the first value of the key, or the empty string when it is missing. -/
def Context.Query (c : Context) (key : String) : String :=
  (c.params.lookup key).getD ""

/-! ## handlers.go -/

/-- Go `toFloat64`: `none` stands for the result `(0, false)`. -/
def toFloat64 (val : Value) : Option Float64 :=
  match val with
  | .float64 v => some v
  | .int64 v => some (float64OfInt v)
  | .int32 v => some (float64OfInt v)
  | .int v => some (float64OfInt v)
  | _ => none

/-- Go `getEventTime`. -/
def getEventTime (values : Values) (recordTime : Time) : Int :=
  match values.lookup "event_time" with
  | some (.int64 v) => v
  | some (.string v) =>
    match ParseRFC3339 v with
    | some t => t.Unix
    | none => recordTime.Unix
  | _ => recordTime.Unix

/-- One pass through the body of the `for result.Next()` loop of `GetTelemetryHandler`. -/
def reshapeStep (out : Telemetry) (record : FluxRecord) : Telemetry :=
  let values := record.values
  let _time := record.time.UTC.FormatRFC3339
  let out := match toFloat64 (values.get "speed") with
    | some v => { out with speed := out.speed ++ [⟨_time, v⟩] }
    | none => out
  let out := match toFloat64 (values.get "fls485_level_1") with
    | some v => { out with fls485_level_1 := out.fls485_level_1 ++ [⟨_time, v⟩] }
    | none => out
  let out := match toFloat64 (values.get "fls485_level_2") with
    | some v => { out with fls485_level_2 := out.fls485_level_2 ++ [⟨_time, v⟩] }
    | none => out
  let out := match toFloat64 (values.get "main_power_voltage") with
    | some v => { out with main_power_voltage := out.main_power_voltage ++ [⟨_time, v⟩] }
    | none => out
  match toFloat64 (values.get "latitude"), toFloat64 (values.get "longitude") with
  | some lat, some lon =>
    { out with track := out.track ++ [⟨_time, lat, lon, getEventTime values record.time⟩] }
  | _, _ => out

/-- The row loop of `GetTelemetryHandler`: all five slices start nil. -/
def reshape (records : List FluxRecord) : Telemetry :=
  records.foldl reshapeStep ⟨[], [], [], [], []⟩

/-- The loop `for result.Next()` of `GetIMEIsHandler` and of `GetFieldsHandler`. -/
def collectStrings (records : List FluxRecord) : List String :=
  records.foldl (fun acc record =>
    match record.Value with
    | .string s => acc ++ [s]
    | _ => acc) []

/-- Query text of `GetIMEIsHandler`. -/
def imeisFlux (bucket : String) : String :=
  "from(bucket: \"" ++ bucket ++ ("\")\n"
    ++ "      |> range(start: -30d)\n"
    ++ "      |> filter(fn: (r) => r[\"_measurement\"] == \"telemetry\")\n"
    ++ "      |> keep(columns: [\"imei\"])\n"
    ++ "      |> group()\n"
    ++ "      |> distinct(column: \"imei\")\n"
    ++ "      |> sort(columns: [\"imei\"])")

/-- Go `GetIMEIsHandler`. -/
def GetIMEIsHandler (_c : Context) (queryAPI : QueryAPI) (bucket : String) : Outcome :=
  let flux := imeisFlux bucket
  match queryAPI flux with
  | .error err => ⟨⟨StatusInternalServerError, .error err⟩, [flux]⟩
  | .ok result => ⟨⟨StatusOK, .imeis (collectStrings result.records)⟩, [flux]⟩

/-- The second raw string literal of the query text of `GetFieldsHandler`, between `bucket`
and `imei`. -/
def fieldsFluxMiddle : String :=
  "\")\n"
    ++ "      |> range(start: -30d)\n"
    ++ "      |> filter(fn: (r) => r[\"_measurement\"] == \"telemetry\")\n"
    ++ "      |> filter(fn: (r) => r[\"imei\"] == \""

/-- The last raw string literal of the query text of `GetFieldsHandler`, after `imei`. -/
def fieldsFluxTail : String :=
  "\")\n"
    ++ "      |> keep(columns: [\"_field\"])\n"
    ++ "      |> group()\n"
    ++ "      |> distinct(column: \"_field\")\n"
    ++ "      |> sort(columns: [\"_field\"])"

/-- Query text of `GetFieldsHandler`. -/
def fieldsFlux (bucket imei : String) : String :=
  "from(bucket: \"" ++ bucket ++ fieldsFluxMiddle ++ imei ++ fieldsFluxTail

/-- Go `GetFieldsHandler`. -/
def GetFieldsHandler (c : Context) (queryAPI : QueryAPI) (bucket : String) : Outcome :=
  let imei := c.Query "imei"
  if imei = "" then ⟨⟨StatusBadRequest, .error "imei required"⟩, []⟩
  else
    let flux := fieldsFlux bucket imei
    match queryAPI flux with
    | .error err => ⟨⟨StatusInternalServerError, .error err⟩, [flux]⟩
    | .ok result => ⟨⟨StatusOK, .fields (collectStrings result.records)⟩, [flux]⟩

/-- The last raw string literal of the query text of `GetTelemetryHandler`, the one that
follows `imei`. -/
def telemetryFluxTail : String :=
  "\")\n"
    ++ "      |> filter(fn: (r) => r[\"_field\"] == \"speed\" or r[\"_field\"] == \"fls485_level_1\" or r[\"_field\"] == \"fls485_level_2\" or r[\"_field\"] == \"latitude\" or r[\"_field\"] == \"longitude\" or r[\"_field\"] == \"main_power_voltage\" or r[\"_field\"] == \"event_time\")\n"
    ++ "      |> pivot(rowKey: [\"_time\"], columnKey: [\"_field\"], valueColumn: \"_value\")\n"
    ++ "      |> sort(columns: [\"_time\"])\n"
    ++ "      |> map(fn: (r) => (\x7b\n"
    ++ "          r with main_power_voltage: if exists r.main_power_voltage then float(v: r.main_power_voltage) / 1000.0 else float(v: 0.0)\n"
    ++ "      \x7d))\n"
    ++ "      |> limit(n:10000)"

/-- The second raw string literal of the query text of `GetTelemetryHandler`, between
`bucket` and `start`. -/
def telemetryFluxRange : String :=
  "\")\n"
    ++ "      |> range(start: time(v: \""

/-- The fourth raw string literal of the query text of `GetTelemetryHandler`, between `end`
and `imei`. -/
def telemetryFluxMiddle : String :=
  "\"))\n"
    ++ "      |> filter(fn: (r) => r[\"_measurement\"] == \"telemetry\" and r[\"imei\"] == \""

/-- Query text of `GetTelemetryHandler`. -/
def telemetryFlux (bucket imei start end_ : String) : String :=
  "from(bucket: \"" ++ bucket ++ telemetryFluxRange ++ start ++ "\"), stop: time(v: \""
    ++ end_ ++ telemetryFluxMiddle ++ imei ++ telemetryFluxTail

/-- Go `GetTelemetryHandler`. -/
def GetTelemetryHandler (c : Context) (queryAPI : QueryAPI) (bucket : String) : Outcome :=
  let imei := c.Query "imei"
  let start := c.Query "start"
  let end_ := c.Query "end"
  if imei = "" ∨ start = "" ∨ end_ = "" then
    ⟨⟨StatusBadRequest, .error "imei, start and end parameters are required"⟩, []⟩
  else
    let flux := telemetryFlux bucket imei start end_
    match queryAPI flux with
    | .error err => ⟨⟨StatusInternalServerError, .error err⟩, [flux]⟩
    | .ok result => ⟨⟨StatusOK, .telemetry (reshape result.records)⟩, [flux]⟩

/-! ## Specification-side definitions

These follow the wording of the specification and are what the embedded code is compared
with. -/

/-- The float value of a column that is present and numeric in the sense of the
specification (a 64-bit float, or a 64- or 32-bit integer: the Go types `float64`, `int64`,
`int32`, `int`); `none` for a column that is absent, nil, a string or any other value. -/
def specNumeric (column : Option Value) : Option Float64 :=
  match column with
  | some (.float64 x) => some x
  | some (.int64 n) => some (float64OfInt n)
  | some (.int32 n) => some (float64OfInt n)
  | some (.int n) => some (float64OfInt n)
  | _ => none

/-- The Series Point a row contributes to the series of field `f`, if any. -/
def specSeriesPoint (f : String) (row : FluxRecord) : Option SeriesPoint :=
  (specNumeric (row.values.lookup f)).map (fun x => ⟨row.time.UTC.FormatRFC3339, x⟩)

/-- The series of field `f`: the points of the rows that have one, in row order. -/
def specSeries (f : String) (rows : List FluxRecord) : List SeriesPoint :=
  rows.filterMap (specSeriesPoint f)

/-- The Track Point a row contributes, if any: both coordinates must be numeric. -/
def specTrackPoint (row : FluxRecord) : Option TrackPoint :=
  match specNumeric (row.values.lookup "latitude"),
      specNumeric (row.values.lookup "longitude") with
  | some lat, some lon =>
    some ⟨row.time.UTC.FormatRFC3339, lat, lon, getEventTime row.values row.time⟩
  | _, _ => none

/-- The track: the Track Points of the rows that have one, in row order. -/
def specTrack (rows : List FluxRecord) : List TrackPoint :=
  rows.filterMap specTrackPoint

/-- A Track Point without its event time. -/
def TrackPoint.position (p : TrackPoint) : String × Float64 × Float64 := (p.Time, p.Lat, p.Lon)

/-- A query engine that answers every query with an empty, error-free result. -/
def emptyEngine : QueryAPI := fun _ => .ok ⟨[], none⟩

/-- The row of the worked example of the specification, with row timestamp `t`:
speed 12.5, latitude 10.0, longitude 20.0, main_power_voltage 12000, no other column. -/
def sampleRow (t : Time) : FluxRecord :=
  ⟨t, [("speed", .float64 f64_12_5), ("latitude", .float64 (float64OfInt 10)),
    ("longitude", .float64 (float64OfInt 20)), ("main_power_voltage", .int64 12000)]⟩

/-- The same row as the query delivers it: the `map` stage of the query text has replaced
main_power_voltage by its float value divided by 1000.0, that is 12.0. -/
def sampleRowDelivered (t : Time) : FluxRecord :=
  ⟨t, [("speed", .float64 f64_12_5), ("latitude", .float64 (float64OfInt 10)),
    ("longitude", .float64 (float64OfInt 20)),
    ("main_power_voltage", .float64 (float64OfInt 12))]⟩

/-- Text `part` occurs in `text`. -/
def Contains (text part : String) : Prop :=
  ∃ pre post : String, text = pre ++ part ++ post

/-- The contents of the double-quoted string literals of a query text, in order. The second
argument is the literal being read, `none` between literals. Inside a literal a backslash
escapes the next character; an unterminated literal is dropped. -/
def stringLiterals : List Char → Option (List Char) → List (List Char)
  | [], _ => []
  | c :: cs, none => if c = '"' then stringLiterals cs (some []) else stringLiterals cs none
  | [_], some _ => []
  | c :: e :: cs, some lit =>
    if c = '"' then lit :: stringLiterals (e :: cs) none
    else if c = '\\' then
      let d := if e = 'n' then '\n' else if e = 'r' then '\r' else if e = 't' then '\t' else e
      stringLiterals cs (some (lit ++ [d]))
    else stringLiterals (e :: cs) (some (lit ++ [c]))

/-- The sanitisation requirement of the specification for one caller-supplied parameter and
one handler run: either the request was rejected with a client error and no query was
issued, or each issued query text holds the parameter in escaped form, that is, as the
content of one of its string literals. -/
def Sanitised (param : String) (out : Outcome) : Prop :=
  (400 ≤ out.response.status ∧ out.response.status < 500 ∧ out.issued = []) ∨
    (∀ q ∈ out.issued, param.data ∈ stringLiterals q.data none)

/-- An identifier that closes its string literal and widens the filter to every device. -/
def injectedIMEI : String := "A\" or r[\"imei\"] != \"A"

/-- A query engine whose result delivers one record and then fails while iterating:
`Next()` returns true once, then false with `Err()` set. -/
def failingMidway : QueryAPI := fun _ =>
  .ok ⟨[⟨⟨1717243200⟩, [("_value", .string "ABC123"), ("speed", .float64 f64_12_5)]⟩],
    some "unexpected EOF"⟩

/-- A JSON document as `c.JSON` writes it. Numbers keep the value they render. -/
inductive Json where
  | null
  | string (s : String)
  | number (x : Float64)
  | integer (n : Int)
  | array (items : List Json)
  | object (members : List (String × Json))

/-- The member of a JSON object with the given name. -/
def Json.member (j : Json) (name : String) : Option Json :=
  match j with
  | .object members => members.lookup name
  | _ => none

/-- How `encoding/json` renders a slice that was declared with `var` and only grown by
`append`: the slice is nil exactly when nothing was appended, and a nil slice is written as
`null`, not as `[]`. -/
def sliceJSON (items : List Json) : Json :=
  match items with
  | [] => .null
  | _ :: _ => .array items

/-- JSON of a `SeriesPoint`, members in field order under their `json` tags. -/
def SeriesPoint.toJSON (p : SeriesPoint) : Json :=
  .object [("time", .string p.Time), ("value", .number p.Value)]

/-- JSON of a `TrackPoint`, members in field order under their `json` tags. -/
def TrackPoint.toJSON (p : TrackPoint) : Json :=
  .object [("time", .string p.Time), ("lat", .number p.Lat), ("lon", .number p.Lon),
    ("event_time", .integer p.EventTime)]

/-- JSON of the `gin.H` maps the handlers pass to `c.JSON`; map members are written in
sorted key order. -/
def Body.toJSON (body : Body) : Json :=
  match body with
  | .error msg => .object [("error", .string msg)]
  | .imeis xs => .object [("imeis", sliceJSON (xs.map Json.string))]
  | .fields xs => .object [("fields", sliceJSON (xs.map Json.string))]
  | .telemetry data =>
    .object [("series", .object [
        ("fls485_level_1", sliceJSON (data.fls485_level_1.map SeriesPoint.toJSON)),
        ("fls485_level_2", sliceJSON (data.fls485_level_2.map SeriesPoint.toJSON)),
        ("main_power_voltage", sliceJSON (data.main_power_voltage.map SeriesPoint.toJSON)),
        ("speed", sliceJSON (data.speed.map SeriesPoint.toJSON))]),
      ("track", sliceJSON (data.track.map TrackPoint.toJSON))]

/-! ## Specification-side definitions for the collected lists and for independence -/

/-- The string carried by a row of a single-column result, if its value is a string. -/
def specStringValue (row : FluxRecord) : Option String :=
  match row.values.lookup "_value" with
  | some (.string s) => some s
  | _ => none

/-- The values of the rows whose value is a string, in row order. -/
def specStrings (rows : List FluxRecord) : List String :=
  rows.filterMap specStringValue

/-- What a row shows of one column: its timestamp and the value of the column. -/
def columnView (f : String) (row : FluxRecord) : Time × Value :=
  (row.time, row.values.get f)

/-- What a row shows of the seven enumerated columns: its timestamp and their values. -/
def enumeratedView (row : FluxRecord) : Time × List Value :=
  (row.time, [row.values.get "speed", row.values.get "fls485_level_1",
    row.values.get "fls485_level_2", row.values.get "main_power_voltage",
    row.values.get "latitude", row.values.get "longitude", row.values.get "event_time"])

/-- Two rows with the same enumerated columns and different other columns. -/
def plainRow : FluxRecord :=
  ⟨⟨1717243200⟩, [("speed", .float64 f64_12_5), ("latitude", .int64 10),
    ("longitude", .int64 20)]⟩

/-- The row `plainRow` with further columns that the reshaper does not enumerate. -/
def noisyRow : FluxRecord :=
  ⟨⟨1717243200⟩, [("_measurement", .string "telemetry"), ("speed", .float64 f64_12_5),
    ("imei", .string "ABC123"), ("latitude", .int64 10), ("longitude", .int64 20),
    ("rpm", .int64 900), ("event_time", .nil)]⟩

/-- A query engine whose result delivers the given records without error. -/
def engineDelivering (records : List FluxRecord) : QueryAPI := fun _ => .ok ⟨records, none⟩

/-- Rows of a single-column result, two of them with a value that is not a string. -/
def mixedRows : List FluxRecord :=
  [⟨⟨0⟩, [("_value", .string "B")]⟩, ⟨⟨0⟩, [("_value", .int64 7)]⟩,
    ⟨⟨0⟩, [("_value", .string "A")]⟩, ⟨⟨0⟩, []⟩, ⟨⟨0⟩, [("_value", .string "B")]⟩]

/-- The row of the worked example with an arbitrary main_power_voltage column. -/
def sampleRowWith (t : Time) (voltage : Value) : FluxRecord :=
  ⟨t, [("speed", .float64 f64_12_5), ("latitude", .float64 (float64OfInt 10)),
    ("longitude", .float64 (float64OfInt 20)), ("main_power_voltage", voltage)]⟩

/-- The `map` stage of the query text of `GetTelemetryHandler` (handlers.go 78 to 80): it
asks the query engine to replace main_power_voltage by its float value divided by 1000.0,
or by 0.0 when the column does not exist. -/
def mapStage : String :=
  "|> map(fn: (r) => (\x7b\n"
    ++ "          r with main_power_voltage: if exists r.main_power_voltage then float(v: r.main_power_voltage) / 1000.0 else float(v: 0.0)\n"
    ++ "      \x7d))"

/-! ## Lemmas on the row loop -/

theorem toFloat64_get (values : Values) (key : String) :
    toFloat64 (values.get key) = specNumeric (values.lookup key) := by
  unfold Values.get specNumeric
  cases h : values.lookup key with
  | none => rfl
  | some v => cases v <;> rfl

theorem reshapeStep_eq (out : Telemetry) (r : FluxRecord) :
    reshapeStep out r =
      ⟨out.speed ++ (specSeriesPoint "speed" r).toList,
       out.fls485_level_1 ++ (specSeriesPoint "fls485_level_1" r).toList,
       out.fls485_level_2 ++ (specSeriesPoint "fls485_level_2" r).toList,
       out.main_power_voltage ++ (specSeriesPoint "main_power_voltage" r).toList,
       out.track ++ (specTrackPoint r).toList⟩ := by
  unfold reshapeStep specSeriesPoint specTrackPoint
  simp only [toFloat64_get]
  cases specNumeric (r.values.lookup "speed") <;>
  cases specNumeric (r.values.lookup "fls485_level_1") <;>
  cases specNumeric (r.values.lookup "fls485_level_2") <;>
  cases specNumeric (r.values.lookup "main_power_voltage") <;>
  cases specNumeric (r.values.lookup "latitude") <;>
  cases specNumeric (r.values.lookup "longitude") <;>
  simp

theorem foldl_reshapeStep (rows : List FluxRecord) (out : Telemetry) :
    rows.foldl reshapeStep out =
      ⟨out.speed ++ specSeries "speed" rows,
       out.fls485_level_1 ++ specSeries "fls485_level_1" rows,
       out.fls485_level_2 ++ specSeries "fls485_level_2" rows,
       out.main_power_voltage ++ specSeries "main_power_voltage" rows,
       out.track ++ specTrack rows⟩ := by
  induction rows generalizing out with
  | nil => simp [specSeries, specTrack]
  | cons r rs ih =>
    rw [List.foldl_cons, ih, reshapeStep_eq]
    simp only [specSeries, specTrack, List.filterMap_cons, List.append_assoc]
    cases specSeriesPoint "speed" r <;>
    cases specSeriesPoint "fls485_level_1" r <;>
    cases specSeriesPoint "fls485_level_2" r <;>
    cases specSeriesPoint "main_power_voltage" r <;>
    cases specTrackPoint r <;>
    simp

theorem reshape_eq (rows : List FluxRecord) :
    reshape rows =
      ⟨specSeries "speed" rows, specSeries "fls485_level_1" rows,
       specSeries "fls485_level_2" rows, specSeries "main_power_voltage" rows,
       specTrack rows⟩ := by
  unfold reshape
  rw [foldl_reshapeStep]
  simp

/-! ## Request validation of the telemetry endpoint -/

/-- C1: in `GetTelemetryHandler`, when at least one of the query parameters imei, start, end
is empty or missing, the response is HTTP 400 with an error message and no query reaches the
query engine; when all three are non-empty the response is not HTTP 400. -/
theorem C1_telemetry_requires_all_parameters (c : Context) (queryAPI : QueryAPI)
    (bucket : String) :
    ((c.Query "imei" = "" ∨ c.Query "start" = "" ∨ c.Query "end" = "") →
      (GetTelemetryHandler c queryAPI bucket).response =
          ⟨400, .error "imei, start and end parameters are required"⟩ ∧
        (GetTelemetryHandler c queryAPI bucket).issued = []) ∧
    (¬ (c.Query "imei" = "" ∨ c.Query "start" = "" ∨ c.Query "end" = "") →
      (GetTelemetryHandler c queryAPI bucket).response.status ≠ 400) := by
  constructor
  · intro h
    simp [GetTelemetryHandler, h, StatusBadRequest]
  · intro h
    simp only [GetTelemetryHandler, if_neg h]
    cases queryAPI _ <;> simp [StatusInternalServerError, StatusOK]

/-- C1 at a request with imei and start set and end missing: HTTP 400, no query. -/
theorem C1_telemetry_requires_all_parameters_witness :
    (GetTelemetryHandler ⟨[("imei", "ABC123"), ("start", "2024-01-01T00:00:00Z")]⟩
        emptyEngine "telemetry").response =
        ⟨400, .error "imei, start and end parameters are required"⟩ ∧
      (GetTelemetryHandler ⟨[("imei", "ABC123"), ("start", "2024-01-01T00:00:00Z")]⟩
        emptyEngine "telemetry").issued = [] :=
  (C1_telemetry_requires_all_parameters
    ⟨[("imei", "ABC123"), ("start", "2024-01-01T00:00:00Z")]⟩ emptyEngine "telemetry").1
    (by decide)

/-! ## Result reshaping -/

/-- C2: for every sequence of rows and each of the four scalar fields, the output series of
the field is exactly the list, in row order, of the points (row timestamp formatted as
RFC3339 in UTC, column value converted to float) of those rows whose column is present and
numeric; every other row contributes no point to that series. -/
theorem C2_series_are_the_numeric_columns (rows : List FluxRecord) :
    (reshape rows).speed = specSeries "speed" rows ∧
    (reshape rows).fls485_level_1 = specSeries "fls485_level_1" rows ∧
    (reshape rows).fls485_level_2 = specSeries "fls485_level_2" rows ∧
    (reshape rows).main_power_voltage = specSeries "main_power_voltage" rows := by
  rw [reshape_eq]
  exact ⟨rfl, rfl, rfl, rfl⟩

/-- C3: the track is the list, in row order, of one Track Point for each row whose latitude
and longitude are both present and numeric, with lat and lon the coerced values; a row with
latitude "not-a-number" and longitude 20.0 yields no Track Point; and two rows with the same
timestamp, latitude and longitude columns emit the same Track Points up to the event time,
whatever their event_time columns (or any other column) hold. -/
theorem C3_track_needs_both_coordinates (rows : List FluxRecord) :
    (reshape rows).track = specTrack rows ∧
    (∀ r : FluxRecord,
      (reshape [r]).track.map TrackPoint.position =
        match specNumeric (r.values.lookup "latitude"),
            specNumeric (r.values.lookup "longitude") with
        | some lat, some lon => [(r.time.UTC.FormatRFC3339, lat, lon)]
        | _, _ => []) ∧
    (∀ (t : Time) (others : Values),
      (reshape [⟨t, ("latitude", .string "not-a-number")
        :: ("longitude", .float64 (float64OfInt 20)) :: others⟩]).track = []) ∧
    (∀ r r2 : FluxRecord, r.time = r2.time →
      r.values.lookup "latitude" = r2.values.lookup "latitude" →
      r.values.lookup "longitude" = r2.values.lookup "longitude" →
      (reshape [r]).track.map TrackPoint.position =
        (reshape [r2]).track.map TrackPoint.position) := by
  have single : ∀ r : FluxRecord,
      (reshape [r]).track.map TrackPoint.position =
        match specNumeric (r.values.lookup "latitude"),
            specNumeric (r.values.lookup "longitude") with
        | some lat, some lon => [(r.time.UTC.FormatRFC3339, lat, lon)]
        | _, _ => [] := by
    intro r
    rw [reshape_eq]
    simp only [specTrack, List.filterMap_cons, List.filterMap_nil, specTrackPoint]
    cases specNumeric (r.values.lookup "latitude") <;>
    cases specNumeric (r.values.lookup "longitude") <;>
    simp [TrackPoint.position]
  refine ⟨by rw [reshape_eq], single, ?_, ?_⟩
  · intro t others
    rw [reshape_eq]
    simp [specTrack, specTrackPoint, specNumeric, List.lookup]
  · intro r r2 ht hlat hlon
    rw [single r, single r2, ht, hlat, hlon]

/-- C3 at two rows that differ only in event_time (one malformed string, one absent): both
emit the Track Point at the same position. -/
theorem C3_track_needs_both_coordinates_witness :
    (reshape [⟨⟨1717243200⟩, [("latitude", .float64 (float64OfInt 10)),
        ("longitude", .float64 (float64OfInt 20)), ("event_time", .string "garbage")]⟩]).track.map
        TrackPoint.position =
      (reshape [⟨⟨1717243200⟩, [("latitude", .float64 (float64OfInt 10)),
        ("longitude", .float64 (float64OfInt 20))]⟩]).track.map TrackPoint.position :=
  (C3_track_needs_both_coordinates []).2.2.2
    ⟨⟨1717243200⟩, [("latitude", .float64 (float64OfInt 10)),
      ("longitude", .float64 (float64OfInt 20)), ("event_time", .string "garbage")]⟩
    ⟨⟨1717243200⟩, [("latitude", .float64 (float64OfInt 10)),
      ("longitude", .float64 (float64OfInt 20))]⟩ rfl (by decide) (by decide)

/-! ## Event time of a Track Point -/

theorem getEventTime_int64 (values : Values) (recordTime : Time) (n : Int)
    (h : values.lookup "event_time" = some (.int64 n)) :
    getEventTime values recordTime = n := by
  simp [getEventTime, h]

/-- Values of the parser model on conforming texts, on texts that only the general layout
parser accepts (hour of one digit, comma before the fraction, zone offset 24:00 and 24:60)
and on texts that `time.Parse` rejects. -/
theorem ParseRFC3339_examples :
    ParseRFC3339 "2024-06-01T12:00:00Z" = some ⟨1717243200⟩ ∧
    ParseRFC3339 "2024-06-01T14:00:00+02:00" = some ⟨1717243200⟩ ∧
    ParseRFC3339 "2024-06-01T04:30:00.250-07:30" = some ⟨1717243200⟩ ∧
    ParseRFC3339 "1970-01-01T00:00:00Z" = some ⟨0⟩ ∧
    ParseRFC3339 "1969-12-31T23:59:59Z" = some ⟨-1⟩ ∧
    ParseRFC3339 "2024-02-29T12:00:00Z" = some ⟨1709208000⟩ ∧
    ParseRFC3339 "2024-06-01T1:00:00Z" = some ⟨1717203600⟩ ∧
    ParseRFC3339 "2024-06-01T12:00:00,5Z" = some ⟨1717243200⟩ ∧
    ParseRFC3339 "2024-06-01T12:00:00+24:00" = some ⟨1717156800⟩ ∧
    ParseRFC3339 "2024-06-01T12:00:00+24:60" = some ⟨1717153200⟩ ∧
    ParseRFC3339 "2024-06-01T12:00:00+25:00" = none ∧
    ParseRFC3339 "2024-06-01T12:00:00" = none ∧
    ParseRFC3339 "2024-06-01T12:00:00Zx" = none ∧
    ParseRFC3339 "2024-06-01t12:00:00Z" = none ∧
    ParseRFC3339 "2024-6-01T12:00:00Z" = none ∧
    ParseRFC3339 "2023-02-29T12:00:00Z" = none ∧
    ParseRFC3339 "2024-06-01T24:00:00Z" = none ∧
    ParseRFC3339 "2024-06-01 12:00:00Z" = none ∧
    ParseRFC3339 "not-a-date" = none ∧
    ParseRFC3339 "" = none := by
  decide

/-- C5: when the event_time column is a string, the event time is the epoch seconds of the
string if it parses as an RFC3339 timestamp (1717243200 for "2024-06-01T12:00:00Z" and for
"2024-06-01T14:00:00+02:00", whatever the row timestamp) and the epoch seconds of the row
timestamp if it does not (as for "not-a-date"); when the column is absent, or holds a value
that is neither an integer nor a string, the event time is the epoch seconds of the row
timestamp. -/
theorem C5_event_time_string_and_fallback (values : Values) (recordTime : Time) :
    (∀ (s : String) (t : Time), values.lookup "event_time" = some (.string s) →
      ParseRFC3339 s = some t → getEventTime values recordTime = t.Unix) ∧
    (values.lookup "event_time" = some (.string "2024-06-01T12:00:00Z") →
      getEventTime values recordTime = 1717243200) ∧
    (∀ s : String, values.lookup "event_time" = some (.string s) →
      ParseRFC3339 s = none → getEventTime values recordTime = recordTime.Unix) ∧
    (values.lookup "event_time" = none → getEventTime values recordTime = recordTime.Unix) ∧
    (∀ v : Value, values.lookup "event_time" = some v →
      (∀ n : Int, v ≠ .int64 n ∧ v ≠ .int32 n ∧ v ≠ .int n) → (∀ s : String, v ≠ .string s) →
      getEventTime values recordTime = recordTime.Unix) ∧
    (values.lookup "event_time" = some (.string "2024-06-01T14:00:00+02:00") →
      getEventTime values recordTime = 1717243200) ∧
    (values.lookup "event_time" = some (.string "2024-06-01T1:00:00Z") →
      getEventTime values recordTime = 1717203600) ∧
    (values.lookup "event_time" = some (.string "not-a-date") →
      getEventTime values recordTime = recordTime.Unix) := by
  have parsed : ParseRFC3339 "2024-06-01T12:00:00Z" = some ⟨1717243200⟩ := by decide
  have parsed2 : ParseRFC3339 "2024-06-01T14:00:00+02:00" = some ⟨1717243200⟩ := by decide
  have parsed3 : ParseRFC3339 "2024-06-01T1:00:00Z" = some ⟨1717203600⟩ := by decide
  have parsed4 : ParseRFC3339 "not-a-date" = none := by decide
  refine ⟨?_, ?_, ?_, ?_, ?_, ?_, ?_, ?_⟩
  · intro s t h hp
    simp [getEventTime, h, hp]
  · intro h
    simp [getEventTime, h, parsed, Time.Unix]
  · intro s h hp
    simp [getEventTime, h, hp]
  · intro h
    simp [getEventTime, h]
  · intro v h hint hstr
    cases v with
    | int64 n => exact absurd rfl (hint n).1
    | string s => exact absurd rfl (hstr s)
    | _ => simp [getEventTime, h]
  · intro h
    simp [getEventTime, h, parsed2, Time.Unix]
  · intro h
    simp [getEventTime, h, parsed3, Time.Unix]
  · intro h
    simp [getEventTime, h, parsed4]

/-- C5 at a row with parsable string event_time and an unrelated row timestamp. -/
theorem C5_event_time_string_and_fallback_witness :
    getEventTime [("latitude", .float64 (float64OfInt 10)),
      ("event_time", .string "2024-06-01T12:00:00Z")] ⟨100⟩ = 1717243200 :=
  (C5_event_time_string_and_fallback [("latitude", .float64 (float64OfInt 10)),
    ("event_time", .string "2024-06-01T12:00:00Z")] ⟨100⟩).2.1 (by decide)

/-! ## The worked example -/

/-- C6, refuted as stated: on the row with main_power_voltage 12000 the row loop emits the
main_power_voltage point with value 12000.0, not 12.0. -/
theorem C6_counterexample :
    (reshape [sampleRow ⟨1717243200⟩]).main_power_voltage =
        [⟨"2024-06-01T12:00:00Z", float64OfInt 12000⟩] ∧
      (reshape [sampleRow ⟨1717243200⟩]).main_power_voltage.map SeriesPoint.Value ≠
        [float64OfInt 12] := by
  decide

/-! ## Text of the issued queries -/

theorem literal_infix (m part : String) (h : part.data <:+: m.data) :
    ∃ a b : String, m = a ++ part ++ b := by
  obtain ⟨x, y, hxy⟩ := h
  exact ⟨⟨x⟩, ⟨y⟩, String.ext (by simp [String.data_append, hxy])⟩

set_option maxRecDepth 100000

theorem telemetry_issued (c : Context) (queryAPI : QueryAPI) (bucket : String)
    (h : ¬ (c.Query "imei" = "" ∨ c.Query "start" = "" ∨ c.Query "end" = "")) :
    (GetTelemetryHandler c queryAPI bucket).issued =
      [telemetryFlux bucket (c.Query "imei") (c.Query "start") (c.Query "end")] := by
  simp only [GetTelemetryHandler, if_neg h]
  cases queryAPI _ <;> rfl

theorem fields_issued (c : Context) (queryAPI : QueryAPI) (bucket : String)
    (h : c.Query "imei" ≠ "") :
    (GetFieldsHandler c queryAPI bucket).issued = [fieldsFlux bucket (c.Query "imei")] := by
  simp only [GetFieldsHandler, if_neg h]
  cases queryAPI _ <;> rfl

theorem fields_status_ne_400 (c : Context) (queryAPI : QueryAPI) (bucket : String)
    (h : c.Query "imei" ≠ "") :
    (GetFieldsHandler c queryAPI bucket).response.status ≠ 400 := by
  simp only [GetFieldsHandler, if_neg h]
  cases queryAPI _ <;> simp [StatusInternalServerError, StatusOK]

theorem fields_rejected (c : Context) (queryAPI : QueryAPI) (bucket : String)
    (h : c.Query "imei" = "") :
    GetFieldsHandler c queryAPI bucket = ⟨⟨400, .error "imei required"⟩, []⟩ := by
  simp [GetFieldsHandler, h, StatusBadRequest]

/-- A failure reported by `queryAPI.Query` itself is answered with HTTP 500 carrying the
message of the error, by each of the three handlers. -/
theorem failure_at_issue_is_500 (c : Context) (queryAPI : QueryAPI) (bucket msg : String)
    (herr : ∀ flux, queryAPI flux = .error msg) :
    (GetIMEIsHandler c queryAPI bucket).response = ⟨500, .error msg⟩ ∧
    (c.Query "imei" ≠ "" →
      (GetFieldsHandler c queryAPI bucket).response = ⟨500, .error msg⟩) ∧
    (¬ (c.Query "imei" = "" ∨ c.Query "start" = "" ∨ c.Query "end" = "") →
      (GetTelemetryHandler c queryAPI bucket).response = ⟨500, .error msg⟩) := by
  refine ⟨?_, ?_, ?_⟩
  · simp [GetIMEIsHandler, herr, StatusInternalServerError]
  · intro h
    simp [GetFieldsHandler, h, herr, StatusInternalServerError]
  · intro h
    simp only [GetTelemetryHandler, if_neg h, herr, StatusInternalServerError]

/-! ## The worked example and the map stage of the query -/

theorem telemetryFlux_contains_mapStage (bucket imei start end_ : String) :
    Contains (telemetryFlux bucket imei start end_) mapStage := by
  obtain ⟨a, b, hab⟩ := literal_infix telemetryFluxTail mapStage (by decide)
  exact ⟨"from(bucket: \"" ++ bucket ++ telemetryFluxRange ++ start
      ++ "\"), stop: time(v: \"" ++ end_ ++ telemetryFluxMiddle ++ imei ++ a, b, by
    rw [telemetryFlux, hab]
    simp only [String.append_assoc]⟩

/-- C6, amended: on the single row speed 12.5, latitude 10.0, longitude 20.0,
main_power_voltage 12000 with row timestamp `t`, the row loop emits one speed point with
value 12.5, one main_power_voltage point with the value as received (12000.0), no level-1
or level-2 point, and one Track Point with lat 10.0, lon 20.0 and the epoch seconds of `t`.
The row loop passes every numeric main_power_voltage through unchanged, so the point has
value 12.0 when the row arrives with main_power_voltage 12.0. The division by 1000 is text
of the query: for non-empty parameters the issued query contains the `map` stage
`float(v: r.main_power_voltage) / 1000.0`, and when the query engine answers that query
with the row carrying 12.0 the response is HTTP 200 with the main_power_voltage point
12.0. -/
theorem C6_row_loop_passes_values_through (t : Time) (c : Context) (queryAPI : QueryAPI)
    (bucket : String) :
    reshape [sampleRow t] =
        ⟨[⟨t.UTC.FormatRFC3339, f64_12_5⟩], [], [],
          [⟨t.UTC.FormatRFC3339, float64OfInt 12000⟩],
          [⟨t.UTC.FormatRFC3339, float64OfInt 10, float64OfInt 20, t.Unix⟩]⟩ ∧
    reshape [sampleRowDelivered t] =
        ⟨[⟨t.UTC.FormatRFC3339, f64_12_5⟩], [], [],
          [⟨t.UTC.FormatRFC3339, float64OfInt 12⟩],
          [⟨t.UTC.FormatRFC3339, float64OfInt 10, float64OfInt 20, t.Unix⟩]⟩ ∧
    (∀ (voltage : Value) (x : Float64), toFloat64 voltage = some x →
      reshape [sampleRowWith t voltage] =
        ⟨[⟨t.UTC.FormatRFC3339, f64_12_5⟩], [], [], [⟨t.UTC.FormatRFC3339, x⟩],
          [⟨t.UTC.FormatRFC3339, float64OfInt 10, float64OfInt 20, t.Unix⟩]⟩) ∧
    (¬ (c.Query "imei" = "" ∨ c.Query "start" = "" ∨ c.Query "end" = "") →
      ∃ q : String, (GetTelemetryHandler c queryAPI bucket).issued = [q] ∧
        Contains q mapStage ∧
        (queryAPI q = .ok ⟨[sampleRowDelivered t], none⟩ →
          (GetTelemetryHandler c queryAPI bucket).response =
            ⟨200, .telemetry ⟨[⟨t.UTC.FormatRFC3339, f64_12_5⟩], [], [],
              [⟨t.UTC.FormatRFC3339, float64OfInt 12⟩],
              [⟨t.UTC.FormatRFC3339, float64OfInt 10, float64OfInt 20, t.Unix⟩]⟩⟩)) := by
  refine ⟨rfl, rfl, ?_, ?_⟩
  · intro voltage x h
    cases voltage <;> simp only [toFloat64, Option.some.injEq, reduceCtorEq] at h <;>
      subst h <;> rfl
  · intro h
    refine ⟨_, telemetry_issued c queryAPI bucket h, telemetryFlux_contains_mapStage _ _ _ _, ?_⟩
    intro hok
    simp only [GetTelemetryHandler, if_neg h, hok, StatusOK]
    rfl

/-- C6 amended, at a request with all three parameters and a query engine that delivers
the row carrying main_power_voltage 12.0: the issued query contains the `map` stage and the
response carries the point 12.0. -/
theorem C6_row_loop_passes_values_through_witness :
    ∃ q : String,
      (GetTelemetryHandler ⟨[("imei", "ABC123"), ("start", "2024-06-01T00:00:00Z"),
        ("end", "2024-06-02T00:00:00Z")]⟩
        (engineDelivering [sampleRowDelivered ⟨1717243200⟩]) "telemetry").issued = [q] ∧
      Contains q mapStage ∧
      (engineDelivering [sampleRowDelivered ⟨1717243200⟩] q =
          .ok ⟨[sampleRowDelivered ⟨1717243200⟩], none⟩ →
        (GetTelemetryHandler ⟨[("imei", "ABC123"), ("start", "2024-06-01T00:00:00Z"),
          ("end", "2024-06-02T00:00:00Z")]⟩
          (engineDelivering [sampleRowDelivered ⟨1717243200⟩]) "telemetry").response =
          ⟨200, .telemetry ⟨[⟨(Time.mk 1717243200).UTC.FormatRFC3339, f64_12_5⟩], [], [],
            [⟨(Time.mk 1717243200).UTC.FormatRFC3339, float64OfInt 12⟩],
            [⟨(Time.mk 1717243200).UTC.FormatRFC3339, float64OfInt 10, float64OfInt 20,
              (Time.mk 1717243200).Unix⟩]⟩⟩) :=
  (C6_row_loop_passes_values_through ⟨1717243200⟩
    ⟨[("imei", "ABC123"), ("start", "2024-06-01T00:00:00Z"),
      ("end", "2024-06-02T00:00:00Z")]⟩
    (engineDelivering [sampleRowDelivered ⟨1717243200⟩]) "telemetry").2.2.2 (by decide)

/-! ## Parameter sanitisation -/

/-- The sanitisation requirement is met by a run with a harmless identifier: the issued
text has the string literal `ABC123`. -/
theorem sanitised_harmless_identifier :
    Sanitised "ABC123" (GetFieldsHandler ⟨[("imei", "ABC123")]⟩ emptyEngine "telemetry") := by
  refine Or.inr ?_
  intro q hq
  have hq2 : q = fieldsFlux "telemetry" "ABC123" := by
    have hmem : q ∈ [fieldsFlux "telemetry" "ABC123"] := hq
    simpa using hmem
  rw [hq2]
  decide

/-- C7, refuted as stated: the identifier `A" or r["imei"] != "A` contains a double quote,
the request is not rejected, one query is issued, and no string literal of the issued text
holds the identifier: the raw text closes the literal after `A` and continues as query
code. -/
theorem C7_counterexample :
    '"' ∈ injectedIMEI.data ∧
    (GetFieldsHandler ⟨[("imei", injectedIMEI)]⟩ emptyEngine "telemetry").response.status
      = 200 ∧
    (GetFieldsHandler ⟨[("imei", injectedIMEI)]⟩ emptyEngine "telemetry").issued =
      [fieldsFlux "telemetry" injectedIMEI] ∧
    Contains (fieldsFlux "telemetry" injectedIMEI)
      "filter(fn: (r) => r[\"imei\"] == \"A\" or r[\"imei\"] != \"A\")" ∧
    ¬ Sanitised injectedIMEI
      (GetFieldsHandler ⟨[("imei", injectedIMEI)]⟩ emptyEngine "telemetry") := by
  refine ⟨by decide, by decide, by decide, ?_, ?_⟩
  · obtain ⟨a, b, hab⟩ := literal_infix (fieldsFlux "telemetry" injectedIMEI)
      "filter(fn: (r) => r[\"imei\"] == \"A\" or r[\"imei\"] != \"A\")" (by decide)
    exact ⟨a, b, hab⟩
  · intro h
    rcases h with ⟨h400, _, _⟩ | hlit
    · exact absurd h400 (by decide)
    · have hmem := hlit (fieldsFlux "telemetry" injectedIMEI) (by decide)
      exact absurd hmem (by decide)

/-- C7, amended: the two handlers check their parameters for emptiness only. An empty
parameter gives HTTP 400 and no query; every non-empty parameter, whatever characters it
contains, is neither rejected nor escaped: one query is issued and its text holds the
parameter verbatim, right after a piece of fixed text that ends in an opening double quote
and right before a piece of fixed text that begins with the closing double quote. -/
theorem C7_parameters_reach_the_query_verbatim (c : Context) (queryAPI : QueryAPI)
    (bucket : String) :
    (c.Query "imei" = "" →
      GetFieldsHandler c queryAPI bucket = ⟨⟨400, .error "imei required"⟩, []⟩) ∧
    (c.Query "imei" ≠ "" →
      (GetFieldsHandler c queryAPI bucket).response.status ≠ 400 ∧
      (GetFieldsHandler c queryAPI bucket).issued =
        ["from(bucket: \"" ++ bucket ++ fieldsFluxMiddle ++ c.Query "imei"
          ++ fieldsFluxTail]) ∧
    ((c.Query "imei" = "" ∨ c.Query "start" = "" ∨ c.Query "end" = "") →
      GetTelemetryHandler c queryAPI bucket =
        ⟨⟨400, .error "imei, start and end parameters are required"⟩, []⟩) ∧
    (¬ (c.Query "imei" = "" ∨ c.Query "start" = "" ∨ c.Query "end" = "") →
      (GetTelemetryHandler c queryAPI bucket).response.status ≠ 400 ∧
      (GetTelemetryHandler c queryAPI bucket).issued =
        ["from(bucket: \"" ++ bucket ++ telemetryFluxRange ++ c.Query "start"
          ++ "\"), stop: time(v: \"" ++ c.Query "end" ++ telemetryFluxMiddle
          ++ c.Query "imei" ++ telemetryFluxTail]) ∧
    ("r[\"imei\"] == \"".data <:+ fieldsFluxMiddle.data ∧ "\")".data <+: fieldsFluxTail.data) ∧
    ("range(start: time(v: \"".data <:+ telemetryFluxRange.data ∧
      "\"))".data <+: telemetryFluxMiddle.data ∧
      "r[\"imei\"] == \"".data <:+ telemetryFluxMiddle.data ∧
      "\")".data <+: telemetryFluxTail.data) := by
  refine ⟨fields_rejected c queryAPI bucket, ?_, ?_, ?_, by decide, by decide⟩
  · intro h
    exact ⟨fields_status_ne_400 c queryAPI bucket h, fields_issued c queryAPI bucket h⟩
  · intro h
    simp [GetTelemetryHandler, h, StatusBadRequest]
  · intro h
    refine ⟨?_, telemetry_issued c queryAPI bucket h⟩
    simp only [GetTelemetryHandler, if_neg h]
    cases queryAPI _ <;> simp [StatusInternalServerError, StatusOK]

/-- C7 amended, at the identifier `A" or r["imei"] != "A`: the request is not rejected and
the issued text holds the identifier unchanged. -/
theorem C7_parameters_reach_the_query_verbatim_witness :
    (GetFieldsHandler ⟨[("imei", injectedIMEI)]⟩ emptyEngine "telemetry").response.status
      ≠ 400 ∧
    (GetFieldsHandler ⟨[("imei", injectedIMEI)]⟩ emptyEngine "telemetry").issued =
      ["from(bucket: \"" ++ "telemetry" ++ fieldsFluxMiddle ++ injectedIMEI
        ++ fieldsFluxTail] :=
  (C7_parameters_reach_the_query_verbatim ⟨[("imei", injectedIMEI)]⟩ emptyEngine
    "telemetry").2.1 (by decide)

/-! ## Upstream failures -/

/-- C8: evaluation of the code at the failing input. The query engine delivers one record
and then fails while the rows are iterated (`Err()` is "unexpected EOF"). Each handler
answers HTTP 200 with the data built from the partial result, where the claim says HTTP 500
with the message of the failure and no partial data. -/
theorem C8_failure_while_iterating_is_answered_200 :
    (GetIMEIsHandler ⟨[]⟩ failingMidway "telemetry").response =
      ⟨200, .imeis ["ABC123"]⟩ ∧
    (GetFieldsHandler ⟨[("imei", "ABC123")]⟩ failingMidway "telemetry").response =
      ⟨200, .fields ["ABC123"]⟩ ∧
    (GetTelemetryHandler ⟨[("imei", "ABC123"), ("start", "2024-06-01T00:00:00Z"),
        ("end", "2024-06-02T00:00:00Z")]⟩ failingMidway "telemetry").response =
      ⟨200, .telemetry ⟨[⟨"2024-06-01T12:00:00Z", f64_12_5⟩], [], [], [], []⟩⟩ := by
  decide

/-! ## Query text of the field list and of the series -/

theorem foldl_collect (rows : List FluxRecord) (acc : List String) :
    rows.foldl (fun acc record =>
      match record.Value with
      | .string s => acc ++ [s]
      | _ => acc) acc = acc ++ specStrings rows := by
  induction rows generalizing acc with
  | nil => simp [specStrings]
  | cons r rs ih =>
    rw [List.foldl_cons, ih]
    simp only [specStrings, List.filterMap_cons, specStringValue, FluxRecord.Value, Values.get]
    cases h : r.values.lookup "_value" with
    | none => simp
    | some v => cases v <;> simp

theorem collectStrings_eq (rows : List FluxRecord) : collectStrings rows = specStrings rows := by
  unfold collectStrings
  rw [foldl_collect]
  simp

theorem filterMap_congr_view {α β γ : Type} (view : α → γ) (g : α → Option β)
    (hg : ∀ a b, view a = view b → g a = g b) :
    ∀ xs ys : List α, xs.map view = ys.map view → xs.filterMap g = ys.filterMap g := by
  intro xs
  induction xs with
  | nil =>
    intro ys h
    cases ys with
    | nil => rfl
    | cons y ys => simp at h
  | cons x xs ih =>
    intro ys h
    cases ys with
    | nil => simp at h
    | cons y ys =>
      simp only [List.map_cons, List.cons.injEq] at h
      simp only [List.filterMap_cons, hg x y h.1, ih ys h.2]

theorem specSeriesPoint_of_view (f : String) (r r2 : FluxRecord)
    (h : columnView f r = columnView f r2) : specSeriesPoint f r = specSeriesPoint f r2 := by
  simp only [columnView, Prod.mk.injEq] at h
  unfold specSeriesPoint
  rw [← toFloat64_get, ← toFloat64_get, h.1, h.2]

theorem getEventTime_of_get (values values2 : Values) (t : Time)
    (h : values.get "event_time" = values2.get "event_time") :
    getEventTime values t = getEventTime values2 t := by
  unfold Values.get at h
  unfold getEventTime
  cases h1 : values.lookup "event_time" <;> cases h2 : values2.lookup "event_time" <;>
    simp only [h1, h2, Option.getD_none, Option.getD_some] at h
  · rfl
  · subst h
    rfl
  · subst h
    rfl
  · subst h
    rfl

theorem specTrackPoint_of_view (r r2 : FluxRecord)
    (h : enumeratedView r = enumeratedView r2) : specTrackPoint r = specTrackPoint r2 := by
  simp only [enumeratedView, Prod.mk.injEq, List.cons.injEq, and_true] at h
  obtain ⟨ht, _, _, _, _, hlat, hlon, hev⟩ := h
  unfold specTrackPoint
  rw [← toFloat64_get, ← toFloat64_get, ← toFloat64_get, ← toFloat64_get, hlat, hlon, ht,
    getEventTime_of_get r.values r2.values r2.time hev]

theorem enumeratedView_column (f : String) (r r2 : FluxRecord)
    (hf : f = "speed" ∨ f = "fls485_level_1" ∨ f = "fls485_level_2" ∨
      f = "main_power_voltage")
    (h : enumeratedView r = enumeratedView r2) : columnView f r = columnView f r2 := by
  simp only [enumeratedView, Prod.mk.injEq, List.cons.injEq, and_true] at h
  obtain ⟨ht, h1, h2, h3, h4, _, _, _⟩ := h
  rcases hf with rfl | rfl | rfl | rfl <;> simp [columnView, ht, h1, h2, h3, h4]

/-! ## The identifier list on an empty result -/

/-- C11, refuted as stated: on a successful query without rows `GetIMEIsHandler` answers
HTTP 200 and the member "imeis" of the body is JSON null, not an empty array. -/
theorem C11_counterexample :
    (GetIMEIsHandler ⟨[]⟩ emptyEngine "telemetry").response.status = 200 ∧
    (GetIMEIsHandler ⟨[]⟩ emptyEngine "telemetry").response.body.toJSON.member "imeis" =
      some Json.null ∧
    (GetIMEIsHandler ⟨[]⟩ emptyEngine "telemetry").response.body.toJSON.member "imeis" ≠
      some (Json.array []) := by
  refine ⟨rfl, rfl, ?_⟩
  have h : (GetIMEIsHandler ⟨[]⟩ emptyEngine "telemetry").response.body.toJSON.member
      "imeis" = some Json.null := rfl
  rw [h]
  simp

/-- C11, amended: when the query succeeds and yields no row whose value is a string (in
particular no row at all), `GetIMEIsHandler` answers HTTP 200 and the body is the object
whose only member "imeis" is present and is JSON null: the slice is declared without a
value and stays nil. -/
theorem C11_empty_result_gives_null (c : Context) (queryAPI : QueryAPI) (bucket : String)
    (result : QueryTableResult) (hok : queryAPI (imeisFlux bucket) = .ok result)
    (hnone : ∀ r ∈ result.records, ∀ s : String, r.Value ≠ .string s) :
    (GetIMEIsHandler c queryAPI bucket).response.status = 200 ∧
    (GetIMEIsHandler c queryAPI bucket).response.body.toJSON =
      .object [("imeis", .null)] := by
  have hempty : specStrings result.records = [] := by
    unfold specStrings
    rw [List.filterMap_eq_nil_iff]
    intro r hr
    have hv := hnone r hr
    simp only [FluxRecord.Value, Values.get] at hv
    unfold specStringValue
    cases h : r.values.lookup "_value" with
    | none => rfl
    | some v =>
      cases v with
      | string s => simp [h] at hv
      | _ => rfl
  simp [GetIMEIsHandler, hok, collectStrings_eq, hempty, StatusOK, Body.toJSON, sliceJSON]

/-- C11 amended, at a result whose only row carries an integer: HTTP 200, "imeis" null. -/
theorem C11_empty_result_gives_null_witness :
    (GetIMEIsHandler ⟨[]⟩ (engineDelivering [⟨⟨0⟩, [("_value", .int64 7)]⟩])
        "telemetry").response.status = 200 ∧
    (GetIMEIsHandler ⟨[]⟩ (engineDelivering [⟨⟨0⟩, [("_value", .int64 7)]⟩])
        "telemetry").response.body.toJSON = .object [("imeis", .null)] :=
  C11_empty_result_gives_null ⟨[]⟩ (engineDelivering [⟨⟨0⟩, [("_value", .int64 7)]⟩])
    "telemetry" ⟨[⟨⟨0⟩, [("_value", .int64 7)]⟩], none⟩ rfl (by
      intro r hr s
      rw [List.mem_singleton] at hr
      subst hr
      simp [FluxRecord.Value, Values.get, List.lookup])

/-! ## Independence of the reshaper from other columns -/

/-- C12: two row sequences that agree row by row (so also in length) on the timestamp and
on the value of one scalar field give the same series for that field, whatever the other
columns hold; two row sequences that agree row by row on the timestamp and on the seven
enumerated columns give the same whole output. -/
theorem C12_output_depends_on_enumerated_columns_only (rows rows2 : List FluxRecord) :
    (rows.map (columnView "speed") = rows2.map (columnView "speed") →
      (reshape rows).speed = (reshape rows2).speed) ∧
    (rows.map (columnView "fls485_level_1") = rows2.map (columnView "fls485_level_1") →
      (reshape rows).fls485_level_1 = (reshape rows2).fls485_level_1) ∧
    (rows.map (columnView "fls485_level_2") = rows2.map (columnView "fls485_level_2") →
      (reshape rows).fls485_level_2 = (reshape rows2).fls485_level_2) ∧
    (rows.map (columnView "main_power_voltage") =
        rows2.map (columnView "main_power_voltage") →
      (reshape rows).main_power_voltage = (reshape rows2).main_power_voltage) ∧
    (rows.map enumeratedView = rows2.map enumeratedView → reshape rows = reshape rows2) := by
  have series : ∀ f : String, rows.map (columnView f) = rows2.map (columnView f) →
      specSeries f rows = specSeries f rows2 := fun f h =>
    filterMap_congr_view (columnView f) (specSeriesPoint f) (specSeriesPoint_of_view f)
      rows rows2 h
  have column : ∀ f : String,
      (f = "speed" ∨ f = "fls485_level_1" ∨ f = "fls485_level_2" ∨
        f = "main_power_voltage") →
      rows.map enumeratedView = rows2.map enumeratedView →
      specSeries f rows = specSeries f rows2 := fun f hf h =>
    filterMap_congr_view enumeratedView (specSeriesPoint f)
      (fun a b hab => specSeriesPoint_of_view f a b (enumeratedView_column f a b hf hab))
      rows rows2 h
  rw [reshape_eq, reshape_eq]
  refine ⟨series _, series _, series _, series _, ?_⟩
  intro h
  have htrack : specTrack rows = specTrack rows2 :=
    filterMap_congr_view enumeratedView specTrackPoint specTrackPoint_of_view rows rows2 h
  rw [column "speed" (by simp) h, column "fls485_level_1" (by simp) h,
    column "fls485_level_2" (by simp) h, column "main_power_voltage" (by simp) h, htrack]

/-- C12 at two one-row sequences that differ in columns outside the enumerated ones (and
in an absent against a nil event_time): the whole output is the same. -/
theorem C12_output_depends_on_enumerated_columns_only_witness :
    reshape [plainRow] = reshape [noisyRow] :=
  (C12_output_depends_on_enumerated_columns_only [plainRow] [noisyRow]).2.2.2.2 (by decide)

/-! ## The collected identifier and field lists -/

/-- C13: when the query succeeds, the list "imeis" of `GetIMEIsHandler`, and likewise the
list "fields" of `GetFieldsHandler`, is the list of the values of exactly those rows whose
value is a string, in the order the rows were produced; on the rows B, 7, A, (none), B the
list is B, A, B. -/
theorem C13_lists_are_the_string_values (c : Context) (queryAPI : QueryAPI)
    (bucket : String) (result : QueryTableResult) :
    (queryAPI (imeisFlux bucket) = .ok result →
      (GetIMEIsHandler c queryAPI bucket).response =
        ⟨200, .imeis (result.records.filterMap specStringValue)⟩) ∧
    (c.Query "imei" ≠ "" → queryAPI (fieldsFlux bucket (c.Query "imei")) = .ok result →
      (GetFieldsHandler c queryAPI bucket).response =
        ⟨200, .fields (result.records.filterMap specStringValue)⟩) ∧
    collectStrings mixedRows = ["B", "A", "B"] := by
  refine ⟨?_, ?_, by decide⟩
  · intro hok
    simp [GetIMEIsHandler, hok, collectStrings_eq, specStrings, StatusOK]
  · intro himei hok
    simp [GetFieldsHandler, himei, hok, collectStrings_eq, specStrings, StatusOK]

/-- C13 at a result that delivers the rows B, 7, A, (none), B: both handlers return the
list B, A, B. -/
theorem C13_lists_are_the_string_values_witness :
    (GetIMEIsHandler ⟨[("imei", "ABC123")]⟩ (engineDelivering mixedRows)
        "telemetry").response = ⟨200, .imeis (mixedRows.filterMap specStringValue)⟩ ∧
    (GetFieldsHandler ⟨[("imei", "ABC123")]⟩ (engineDelivering mixedRows)
        "telemetry").response = ⟨200, .fields (mixedRows.filterMap specStringValue)⟩ :=
  ⟨(C13_lists_are_the_string_values ⟨[("imei", "ABC123")]⟩ (engineDelivering mixedRows)
      "telemetry" ⟨mixedRows, none⟩).1 rfl,
    (C13_lists_are_the_string_values ⟨[("imei", "ABC123")]⟩ (engineDelivering mixedRows)
      "telemetry" ⟨mixedRows, none⟩).2.1 (by decide) rfl⟩

/-! ## The reshaper as a list homomorphism -/

/-- C14: each of the five outputs of the row loop on a concatenation `xs ++ ys` is the
output on `xs` followed by the output on `ys`; the empty row sequence gives five empty
outputs; and each output has at most as many points as there are rows. -/
theorem C14_reshape_is_a_list_homomorphism (xs ys : List FluxRecord) :
    ((reshape (xs ++ ys)).speed = (reshape xs).speed ++ (reshape ys).speed ∧
      (reshape (xs ++ ys)).fls485_level_1 =
        (reshape xs).fls485_level_1 ++ (reshape ys).fls485_level_1 ∧
      (reshape (xs ++ ys)).fls485_level_2 =
        (reshape xs).fls485_level_2 ++ (reshape ys).fls485_level_2 ∧
      (reshape (xs ++ ys)).main_power_voltage =
        (reshape xs).main_power_voltage ++ (reshape ys).main_power_voltage ∧
      (reshape (xs ++ ys)).track = (reshape xs).track ++ (reshape ys).track) ∧
    reshape [] = ⟨[], [], [], [], []⟩ ∧
    ((reshape xs).speed.length ≤ xs.length ∧
      (reshape xs).fls485_level_1.length ≤ xs.length ∧
      (reshape xs).fls485_level_2.length ≤ xs.length ∧
      (reshape xs).main_power_voltage.length ≤ xs.length ∧
      (reshape xs).track.length ≤ xs.length) := by
  refine ⟨?_, rfl, ?_⟩
  · simp only [reshape_eq, specSeries, specTrack, List.filterMap_append, and_self]
  · simp only [reshape_eq, specSeries, specTrack]
    exact ⟨List.length_filterMap_le _ _, List.length_filterMap_le _ _,
      List.length_filterMap_le _ _, List.length_filterMap_le _ _,
      List.length_filterMap_le _ _⟩

end Backend
